import Mathlib

/-!
Verification development for the household expense ledger
(GastosResidenciaisAPI): people record transactions (income or expense)
tagged with a category; the system validates transaction admission,
cascades person deletion into transaction deletion plus an orphan-category
sweep, and reports per-person / per-category income, expense and balance
totals.

The definitions below are a shallow embedding of the backend controllers
(`PessoasController`, `CategoriasController`, `TransacoesController`,
`RelatoriosController`) and the EF Core model configuration in
`AppDbContext`.  C# `decimal` amounts are modelled as exact rationals (ℚ):
C# `decimal` is an exact base-10 type, so addition and subtraction of
amounts carry no rounding, which ℚ models faithfully.
-/

/-- Mirror of `Models/Pessoa.cs`: identity, display name, age. -/
structure Pessoa where
  Id : Int
  Nome : String
  Idade : Int
deriving Repr, DecidableEq

/-- Mirror of `Models/Categoria.cs`: identity, description, purpose
(`Finalidade` is one of the strings "Despesa", "Receita", "Ambas"). -/
structure Categoria where
  Id : Int
  Descricao : String
  Finalidade : String
deriving Repr, DecidableEq

/-- Mirror of `Models/Transacao.cs`: identity, description, amount
(`decimal(18,2)` modelled as ℚ), kind (`Tipo` is "Despesa" or "Receita"),
and foreign keys to the category and the owning person. -/
structure Transacao where
  Id : Int
  Descricao : String
  Valor : ℚ
  Tipo : String
  CategoriaId : Int
  PessoaId : Int
deriving Repr, DecidableEq

/-- Mirror of `AppDbContext`: the three entity sets. -/
structure AppDb where
  pessoas : List Pessoa
  categorias : List Categoria
  transacoes : List Transacao
deriving Repr, DecidableEq

/-- The distinct caller-facing rejections produced by the controllers,
one constructor per distinct error response in the source. -/
inductive ApiErro where
  | descricaoObrigatoria
  | valorNaoPositivo
  | tipoInvalido
  | pessoaNaoEncontrada
  | menorDeIdade
  | categoriaNaoEncontrada
  | categoriaExclusivaReceitas
  | categoriaExclusivaDespesas
  | pessoaNaoEncontradaDelete
  | nomeObrigatorio
  | idadeNegativa
  | descricaoObrigatoriaCategoria
  | finalidadeInvalida
deriving Repr, DecidableEq

/-- The human-readable reason attached to each rejection, copied from the
`message` fields of the controllers' error responses. -/
def mensagem : ApiErro → String
  | .descricaoObrigatoria => "A descrição é obrigatória"
  | .valorNaoPositivo => "O valor deve ser um número positivo"
  | .tipoInvalido => "Tipo inválido. Valores aceitos: 'Despesa' ou 'Receita'"
  | .pessoaNaoEncontrada => "Pessoa não encontrada"
  | .menorDeIdade =>
      "Menores de idade (menor de 18 anos) só podem registrar despesas"
  | .categoriaNaoEncontrada => "Categoria não encontrada"
  | .categoriaExclusivaReceitas =>
      "Esta categoria é exclusiva para receitas e não pode ser usada em despesas"
  | .categoriaExclusivaDespesas =>
      "Esta categoria é exclusiva para despesas e não pode ser usada em receitas"
  | .pessoaNaoEncontradaDelete => "Pessoa não encontrada"
  | .nomeObrigatorio => "O nome é obrigatório"
  | .idadeNegativa => "A idade deve ser um número positivo"
  | .descricaoObrigatoriaCategoria => "A descrição é obrigatória"
  | .finalidadeInvalida =>
      "Finalidade inválida. Valores aceitos: 'Despesa', 'Receita' ou 'Ambas'"

/-- Model of `string.IsNullOrWhiteSpace`: true when the string is empty or
consists only of whitespace characters. -/
def isNullOrWhiteSpace (s : String) : Bool :=
  s.data.all Char.isWhitespace

/-- Model of `DbSet.FindAsync` on `Pessoas`: first person with the key. -/
def findPessoa (db : AppDb) (id : Int) : Option Pessoa :=
  db.pessoas.find? (fun p => p.Id == id)

/-- Model of `DbSet.FindAsync` on `Categorias`. -/
def findCategoria (db : AppDb) (id : Int) : Option Categoria :=
  db.categorias.find? (fun c => c.Id == id)

/-- Mirror of `PessoasController.PostPessoa`: rejects a blank name or a
negative age, otherwise stores the person as given. -/
def postPessoa (p : Pessoa) (db : AppDb) : Except ApiErro AppDb :=
  if isNullOrWhiteSpace p.Nome then .error .nomeObrigatorio
  else if p.Idade < 0 then .error .idadeNegativa
  else .ok { db with pessoas := db.pessoas ++ [p] }

/-- Mirror of `CategoriasController.PostCategoria`: rejects a blank
description or a `Finalidade` outside "Despesa"/"Receita"/"Ambas",
otherwise stores the category as given. -/
def postCategoria (c : Categoria) (db : AppDb) : Except ApiErro AppDb :=
  if isNullOrWhiteSpace c.Descricao then .error .descricaoObrigatoriaCategoria
  else if ¬ (c.Finalidade = "Despesa" ∨ c.Finalidade = "Receita" ∨
      c.Finalidade = "Ambas") then .error .finalidadeInvalida
  else .ok { db with categorias := db.categorias ++ [c] }

/-- Mirror of `TransacoesController.PostTransacao`: the five admission
checks in source order (description, positive amount, valid kind; person
exists; minor rule; category exists; category compatibility), appending
the transaction unchanged on success. -/
def postTransacao (t : Transacao) (db : AppDb) : Except ApiErro AppDb :=
  if isNullOrWhiteSpace t.Descricao then .error .descricaoObrigatoria
  else if t.Valor ≤ 0 then .error .valorNaoPositivo
  else if ¬ (t.Tipo = "Despesa" ∨ t.Tipo = "Receita") then .error .tipoInvalido
  else
    match findPessoa db t.PessoaId with
    | none => .error .pessoaNaoEncontrada
    | some pessoa =>
      if pessoa.Idade < 18 ∧ t.Tipo = "Receita" then .error .menorDeIdade
      else
        match findCategoria db t.CategoriaId with
        | none => .error .categoriaNaoEncontrada
        | some categoria =>
          if t.Tipo = "Despesa" ∧ categoria.Finalidade = "Receita" then
            .error .categoriaExclusivaReceitas
          else if t.Tipo = "Receita" ∧ categoria.Finalidade = "Despesa" then
            .error .categoriaExclusivaDespesas
          else .ok { db with transacoes := db.transacoes ++ [t] }

/-- Mirror of `PessoasController.DeletePessoa`: look the person up
(`NotFound` when absent), remove the person, cascade-delete the person's
transactions (the `OnDelete(DeleteBehavior.Cascade)` configuration in
`AppDbContext`), then sweep the whole category set and remove every
category with no remaining referencing transaction, returning the new
store together with the number of categories removed. -/
def deletePessoa (id : Int) (db : AppDb) : Except ApiErro (AppDb × Nat) :=
  match findPessoa db id with
  | none => .error .pessoaNaoEncontradaDelete
  | some _ =>
    let pessoas' := db.pessoas.filter (fun p => ¬ p.Id == id)
    let transacoes' := db.transacoes.filter (fun t => ¬ t.PessoaId == id)
    let categorias' := db.categorias.filter
      (fun c => transacoes'.any (fun t => t.CategoriaId == c.Id))
    let removidas := (db.categorias.filter
      (fun c => ¬ transacoes'.any (fun t => t.CategoriaId == c.Id))).length
    .ok ({ pessoas := pessoas', categorias := categorias',
           transacoes := transacoes' }, removidas)

/-- Navigation property `Pessoa.Transacoes`: the transactions whose
foreign key references the person. -/
def transacoesDePessoa (db : AppDb) (p : Pessoa) : List Transacao :=
  db.transacoes.filter (fun t => t.PessoaId == p.Id)

/-- Navigation property `Categoria.Transacoes`. -/
def transacoesDeCategoria (db : AppDb) (c : Categoria) : List Transacao :=
  db.transacoes.filter (fun t => t.CategoriaId == c.Id)

/-- The `Where(t => t.Tipo == tipo).Sum(t => t.Valor)` pattern used by
both reports. -/
def somaPorTipo (ts : List Transacao) (tipo : String) : ℚ :=
  ((ts.filter (fun t => t.Tipo == tipo)).map (fun t => t.Valor)).sum

/-- One row of the per-person report. -/
structure TotalPessoa where
  pessoaId : Int
  nome : String
  idade : Int
  totalReceitas : ℚ
  totalDespesas : ℚ
  saldo : ℚ
deriving Repr, DecidableEq

/-- One row of the per-category report. -/
structure TotalCategoria where
  categoriaId : Int
  descricao : String
  finalidade : String
  totalReceitas : ℚ
  totalDespesas : ℚ
  saldo : ℚ
deriving Repr, DecidableEq

/-- The grand-total block of either report. -/
structure TotalGeral where
  totalReceitas : ℚ
  totalDespesas : ℚ
  saldoLiquido : ℚ
deriving Repr, DecidableEq

/-- One iteration of the `GetTotaisPorPessoa` loop: the report row built
for one person — income and expense sums over that person's transactions
and their difference. -/
def linhaPessoa (db : AppDb) (p : Pessoa) : TotalPessoa :=
  let totalReceitas := somaPorTipo (transacoesDePessoa db p) "Receita"
  let totalDespesas := somaPorTipo (transacoesDePessoa db p) "Despesa"
  { pessoaId := p.Id, nome := p.Nome, idade := p.Idade,
    totalReceitas := totalReceitas, totalDespesas := totalDespesas,
    saldo := totalReceitas - totalDespesas }

/-- Mirror of `RelatoriosController.GetTotaisPorPessoa`: one row per
person; the grand totals accumulate the per-person figures. -/
def totaisPorPessoa (db : AppDb) : List TotalPessoa × TotalGeral :=
  let entradas := db.pessoas.map (linhaPessoa db)
  let totalGeralReceitas := (entradas.map (fun e => e.totalReceitas)).sum
  let totalGeralDespesas := (entradas.map (fun e => e.totalDespesas)).sum
  (entradas,
   { totalReceitas := totalGeralReceitas,
     totalDespesas := totalGeralDespesas,
     saldoLiquido := totalGeralReceitas - totalGeralDespesas })

/-- Spec-side (section 7): the three caller-facing error classes of the
error taxonomy. -/
inductive Classe where
  | invalidInput
  | notFound
  | forbidden
deriving Repr, DecidableEq

/-- Spec-side (section 7): the taxonomy class of each code rejection. -/
def classeDe : ApiErro → Classe
  | .descricaoObrigatoria => .invalidInput
  | .valorNaoPositivo => .invalidInput
  | .tipoInvalido => .invalidInput
  | .nomeObrigatorio => .invalidInput
  | .idadeNegativa => .invalidInput
  | .descricaoObrigatoriaCategoria => .invalidInput
  | .finalidadeInvalida => .invalidInput
  | .pessoaNaoEncontrada => .notFound
  | .categoriaNaoEncontrada => .notFound
  | .pessoaNaoEncontradaDelete => .notFound
  | .menorDeIdade => .forbidden
  | .categoriaExclusivaReceitas => .forbidden
  | .categoriaExclusivaDespesas => .forbidden

/-- Spec-side (section 4.1): the five failure reasons the spec names for
the admission checks, in their taxonomy form. -/
inductive Motivo where
  | invalidInput
  | notFoundPessoa
  | minorIncome
  | notFoundCategoria
  | categoryMismatch
deriving Repr, DecidableEq

/-- Spec-side (section 4.1): which of the spec's five reasons each
code-level rejection surfaces. -/
def motivoDe : ApiErro → Motivo
  | .descricaoObrigatoria => .invalidInput
  | .valorNaoPositivo => .invalidInput
  | .tipoInvalido => .invalidInput
  | .pessoaNaoEncontrada => .notFoundPessoa
  | .menorDeIdade => .minorIncome
  | .categoriaNaoEncontrada => .notFoundCategoria
  | .categoriaExclusivaReceitas => .categoryMismatch
  | .categoriaExclusivaDespesas => .categoryMismatch
  | .pessoaNaoEncontradaDelete => .notFoundPessoa
  | .nomeObrigatorio => .invalidInput
  | .idadeNegativa => .invalidInput
  | .descricaoObrigatoriaCategoria => .invalidInput
  | .finalidadeInvalida => .invalidInput

/-- Spec-side (section 4.1): the ordered admission contract — the first
violated check of the five, in the spec's order, `none` when all pass.
Written from the spec's wording, to be compared with `postTransacao`. -/
def primeiraViolacao (t : Transacao) (db : AppDb) : Option Motivo :=
  if isNullOrWhiteSpace t.Descricao ∨ t.Valor ≤ 0 ∨
      ¬ (t.Tipo = "Despesa" ∨ t.Tipo = "Receita") then some .invalidInput
  else
    match findPessoa db t.PessoaId with
    | none => some .notFoundPessoa
    | some p =>
      if p.Idade < 18 ∧ t.Tipo = "Receita" then some .minorIncome
      else
        match findCategoria db t.CategoriaId with
        | none => some .notFoundCategoria
        | some c =>
          if (t.Tipo = "Despesa" ∧ c.Finalidade = "Receita") ∨
              (t.Tipo = "Receita" ∧ c.Finalidade = "Despesa") then
            some .categoryMismatch
          else none

/-- Store observed after a `DeletePessoa` request: the new store on
success, and the untouched store when the controller returns an error
before performing any write. -/
def estadoAposDelete (id : Int) (db : AppDb) : AppDb :=
  match deletePessoa id db with
  | .ok (db', _) => db'
  | .error _ => db

/-- Amounts representable in whole cents, the value set of the
`decimal(18,2)` column type of `Transacao.Valor`. -/
def Centavos (q : ℚ) : Prop := ∃ n : ℤ, q = n / 100

/-- Store states reachable from the empty store through the system's own
state-changing operations. -/
inductive Alcancavel : AppDb → Prop where
  | vazio : Alcancavel { pessoas := [], categorias := [], transacoes := [] }
  | pessoa {db db' : AppDb} {p : Pessoa} : Alcancavel db →
      postPessoa p db = .ok db' → Alcancavel db'
  | categoria {db db' : AppDb} {c : Categoria} : Alcancavel db →
      postCategoria c db = .ok db' → Alcancavel db'
  | transacao {db db' : AppDb} {t : Transacao} : Alcancavel db →
      postTransacao t db = .ok db' → Alcancavel db'
  | deleta {db db' : AppDb} {id : Int} {n : Nat} : Alcancavel db →
      deletePessoa id db = .ok (db', n) → Alcancavel db'

/-- One iteration of the `GetTotaisPorCategoria` loop: the report row
built for one category. -/
def linhaCategoria (db : AppDb) (c : Categoria) : TotalCategoria :=
  let totalReceitas := somaPorTipo (transacoesDeCategoria db c) "Receita"
  let totalDespesas := somaPorTipo (transacoesDeCategoria db c) "Despesa"
  { categoriaId := c.Id, descricao := c.Descricao,
    finalidade := c.Finalidade, totalReceitas := totalReceitas,
    totalDespesas := totalDespesas,
    saldo := totalReceitas - totalDespesas }

/-- Mirror of `RelatoriosController.GetTotaisPorCategoria`. -/
def totaisPorCategoria (db : AppDb) : List TotalCategoria × TotalGeral :=
  let entradas := db.categorias.map (linhaCategoria db)
  let totalGeralReceitas := (entradas.map (fun e => e.totalReceitas)).sum
  let totalGeralDespesas := (entradas.map (fun e => e.totalDespesas)).sum
  (entradas,
   { totalReceitas := totalGeralReceitas,
     totalDespesas := totalGeralDespesas,
     saldoLiquido := totalGeralReceitas - totalGeralDespesas })

/-- Concrete person fixture: a 15-year-old. -/
def pAna : Pessoa := { Id := 1, Nome := "Ana", Idade := 15 }

/-- Concrete person fixture: a 30-year-old. -/
def pBia : Pessoa := { Id := 2, Nome := "Bia", Idade := 30 }

/-- Concrete person fixture: an 18-year-old. -/
def pClea : Pessoa := { Id := 3, Nome := "Clea", Idade := 18 }

/-- Concrete category fixture with purpose "Receita". -/
def catSalario : Categoria :=
  { Id := 3, Descricao := "Salario", Finalidade := "Receita" }

/-- Concrete category fixture with purpose "Despesa". -/
def catMercado : Categoria :=
  { Id := 4, Descricao := "Mercado", Finalidade := "Despesa" }

/-- Concrete category fixture with purpose "Ambas". -/
def catOutros : Categoria :=
  { Id := 5, Descricao := "Outros", Finalidade := "Ambas" }

/-- Concrete transaction builder for the instantiations below. -/
def trMk (descricao : String) (valor : ℚ) (tipo : String)
    (catId pesId : Int) : Transacao :=
  { Id := 0, Descricao := descricao, Valor := valor, Tipo := tipo,
    CategoriaId := catId, PessoaId := pesId }

/-- Concrete store fixture with three persons and three categories. -/
def dbBase : AppDb :=
  { pessoas := [pAna, pBia, pClea],
    categorias := [catSalario, catMercado, catOutros],
    transacoes := [] }

/-- Concrete store fixture: `dbBase` after person 2 is deleted (all
categories were orphaned since the store had no transactions). -/
def dbSemBia : AppDb :=
  { pessoas := [pAna, pClea], categorias := [], transacoes := [] }

/-- Concrete transaction fixture: an expense of person 2 in category 5. -/
def trLazer : Transacao := trMk "lazer" 7 "Despesa" 5 2

/-- Concrete store fixture: only person 2. -/
def dbW1 : AppDb := { pessoas := [pBia], categorias := [], transacoes := [] }

/-- Concrete store fixture: person 2 and category 5. -/
def dbW2 : AppDb :=
  { pessoas := [pBia], categorias := [catOutros], transacoes := [] }

/-- Concrete store fixture: person 2, category 5 and one transaction. -/
def dbW3 : AppDb :=
  { pessoas := [pBia], categorias := [catOutros], transacoes := [trLazer] }

/-- Concrete store fixture: the empty store. -/
def dbVazio : AppDb := { pessoas := [], categorias := [], transacoes := [] }

theorem postTransacao_menor_inv (t : Transacao) (db : AppDb)
    (h : postTransacao t db = .error .menorDeIdade) :
    ∃ p, findPessoa db t.PessoaId = some p ∧ p.Idade < 18 ∧
      t.Tipo = "Receita" := by
  unfold postTransacao at h
  split_ifs at h with h1 h2 h3
  all_goals try exact absurd (Except.error.inj h) (by decide)
  split at h
  · exact absurd (Except.error.inj h) (by decide)
  · rename_i p hp
    split_ifs at h with h4
    · exact ⟨p, hp, h4.1, h4.2⟩
    · split at h
      · exact absurd (Except.error.inj h) (by decide)
      · split_ifs at h <;> exact absurd (Except.error.inj h) (by decide)

theorem postTransacao_excluRec_inv (t : Transacao) (db : AppDb)
    (h : postTransacao t db = .error .categoriaExclusivaReceitas) :
    ∃ c, findCategoria db t.CategoriaId = some c ∧
      c.Finalidade = "Receita" ∧ t.Tipo = "Despesa" := by
  unfold postTransacao at h
  split_ifs at h with h1 h2 h3
  all_goals try exact absurd (Except.error.inj h) (by decide)
  split at h
  · exact absurd (Except.error.inj h) (by decide)
  · split_ifs at h with h4
    · exact absurd (Except.error.inj h) (by decide)
    · split at h
      · exact absurd (Except.error.inj h) (by decide)
      · rename_i c hc
        split_ifs at h with h5 h6
        · exact ⟨c, hc, h5.2, h5.1⟩
        · exact absurd (Except.error.inj h) (by decide)

theorem postTransacao_excluDesp_inv (t : Transacao) (db : AppDb)
    (h : postTransacao t db = .error .categoriaExclusivaDespesas) :
    ∃ c, findCategoria db t.CategoriaId = some c ∧
      c.Finalidade = "Despesa" ∧ t.Tipo = "Receita" := by
  unfold postTransacao at h
  split_ifs at h with h1 h2 h3
  all_goals try exact absurd (Except.error.inj h) (by decide)
  split at h
  · exact absurd (Except.error.inj h) (by decide)
  · split_ifs at h with h4
    · exact absurd (Except.error.inj h) (by decide)
    · split at h
      · exact absurd (Except.error.inj h) (by decide)
      · rename_i c hc
        split_ifs at h with h5 h6
        · exact absurd (Except.error.inj h) (by decide)
        · exact ⟨c, hc, h6.2, h6.1⟩

/-- C3: with the earlier checks of the fixed order passing (valid
description and amount, the referenced person resolved), a person younger
than 18 proposing an income transaction is rejected with the minor-income
reason whatever the category field holds, while for a person aged 18 or
more the minor rule never fires. -/
theorem minorRule_correct (t : Transacao) (db : AppDb) (p : Pessoa)
    (hfind : findPessoa db t.PessoaId = some p)
    (hdesc : isNullOrWhiteSpace t.Descricao = false)
    (hval : 0 < t.Valor) :
    (p.Idade < 18 → t.Tipo = "Receita" →
      postTransacao t db = .error .menorDeIdade) ∧
    (18 ≤ p.Idade → postTransacao t db ≠ .error .menorDeIdade) := by
  constructor
  · intro hi ht
    simp [postTransacao, hdesc, not_le.mpr hval, ht, hfind, hi]
  · intro hge h
    obtain ⟨q, hq, hlt, -⟩ := postTransacao_menor_inv t db h
    rw [hfind] at hq
    injection hq with hq
    subst hq
    omega

/-- C3 instantiated: a concrete 15-year-old's income transaction is
rejected as minor income, and a concrete 18-year-old is never rejected by
the minor rule. -/
theorem minorRule_correct_witness :
    (postTransacao (trMk "mesada" 50 "Receita" 7 1) dbBase
      = .error .menorDeIdade) ∧
    (postTransacao (trMk "salario" 50 "Receita" 7 3) dbBase
      ≠ .error .menorDeIdade) := by
  constructor
  · exact (minorRule_correct _ _ pAna
      (by rfl) (by rfl) (by norm_num [trMk])).1 (by decide) rfl
  · exact (minorRule_correct _ _ pClea
      (by rfl) (by rfl) (by norm_num [trMk])).2 (by decide)

/-- C4: with the earlier checks of the fixed order passing, an expense
against a category of purpose "Receita" is rejected as category mismatch,
an income against purpose "Despesa" is rejected symmetrically (for an
adult person, since the minor rule precedes this check), and a category of
purpose "Ambas" never produces either mismatch rejection. -/
theorem categoryCompat_correct (t : Transacao) (db : AppDb)
    (p : Pessoa) (c : Categoria)
    (hp : findPessoa db t.PessoaId = some p)
    (hc : findCategoria db t.CategoriaId = some c)
    (hdesc : isNullOrWhiteSpace t.Descricao = false)
    (hval : 0 < t.Valor) :
    (t.Tipo = "Despesa" → c.Finalidade = "Receita" →
      postTransacao t db = .error .categoriaExclusivaReceitas) ∧
    (t.Tipo = "Receita" → 18 ≤ p.Idade → c.Finalidade = "Despesa" →
      postTransacao t db = .error .categoriaExclusivaDespesas) ∧
    (c.Finalidade = "Ambas" →
      postTransacao t db ≠ .error .categoriaExclusivaReceitas ∧
      postTransacao t db ≠ .error .categoriaExclusivaDespesas) := by
  refine ⟨?_, ?_, ?_⟩
  · intro ht hf
    simp [postTransacao, hdesc, not_le.mpr hval, ht, hp, hc, hf]
  · intro ht hge hf
    simp [postTransacao, hdesc, not_le.mpr hval, ht, hp, hc, hf,
      not_lt.mpr hge]
  · intro hf
    constructor
    · intro h
      obtain ⟨d, hd, hfin, -⟩ := postTransacao_excluRec_inv t db h
      rw [hc] at hd
      injection hd with hd
      subst hd
      rw [hf] at hfin
      exact absurd hfin (by decide)
    · intro h
      obtain ⟨d, hd, hfin, -⟩ := postTransacao_excluDesp_inv t db h
      rw [hc] at hd
      injection hd with hd
      subst hd
      rw [hf] at hfin
      exact absurd hfin (by decide)

/-- C4 instantiated: a concrete expense against an income-only category is
rejected as mismatch, a concrete adult income against an expense-only
category is rejected as mismatch, and against a "Ambas" category neither
mismatch rejection occurs. -/
theorem categoryCompat_correct_witness :
    (postTransacao (trMk "compra" 5 "Despesa" 3 2) dbBase
      = .error .categoriaExclusivaReceitas) ∧
    (postTransacao (trMk "bonus" 5 "Receita" 4 2) dbBase
      = .error .categoriaExclusivaDespesas) ∧
    (postTransacao (trMk "lazer" 5 "Despesa" 5 2) dbBase
      ≠ .error .categoriaExclusivaReceitas) := by
  refine ⟨?_, ?_, ?_⟩
  · exact (categoryCompat_correct _ _ pBia catSalario
      (by rfl) (by rfl) (by rfl) (by norm_num [trMk])).1 rfl rfl
  · exact (categoryCompat_correct _ _ pBia catMercado
      (by rfl) (by rfl) (by rfl) (by norm_num [trMk])).2.1 rfl (by decide) rfl
  · exact ((categoryCompat_correct _ _ pBia catOutros
      (by rfl) (by rfl) (by rfl) (by norm_num [trMk])).2.2 rfl).1

theorem postPessoa_ok_inv {p : Pessoa} {db db' : AppDb}
    (h : postPessoa p db = .ok db') :
    db' = { db with pessoas := db.pessoas ++ [p] } := by
  unfold postPessoa at h
  split_ifs at h
  exact (Except.ok.inj h).symm

theorem postCategoria_ok_inv {c : Categoria} {db db' : AppDb}
    (h : postCategoria c db = .ok db') :
    db' = { db with categorias := db.categorias ++ [c] } ∧
    (c.Finalidade = "Despesa" ∨ c.Finalidade = "Receita" ∨
      c.Finalidade = "Ambas") := by
  unfold postCategoria at h
  split_ifs at h with h1 h2
  exact ⟨(Except.ok.inj h).symm, h2⟩

theorem postTransacao_ok_inv {t : Transacao} {db db' : AppDb}
    (h : postTransacao t db = .ok db') :
    db' = { db with transacoes := db.transacoes ++ [t] } ∧
    (t.Tipo = "Despesa" ∨ t.Tipo = "Receita") := by
  unfold postTransacao at h
  split_ifs at h with h1 h2 h3
  split at h
  · exact absurd h (by simp)
  · split_ifs at h with h4
    split at h
    · exact absurd h (by simp)
    · split_ifs at h with h5 h6
      exact ⟨(Except.ok.inj h).symm, h3⟩

theorem deletePessoa_ok_inv {id : Int} {db : AppDb} {x : AppDb × Nat}
    (h : deletePessoa id db = .ok x) :
    x = ({ pessoas := db.pessoas.filter (fun p => ¬ p.Id == id),
           categorias := db.categorias.filter (fun c =>
             (db.transacoes.filter (fun t => ¬ t.PessoaId == id)).any
               (fun t => t.CategoriaId == c.Id)),
           transacoes := db.transacoes.filter
             (fun t => ¬ t.PessoaId == id) },
         (db.categorias.filter (fun c =>
           ¬ (db.transacoes.filter (fun t => ¬ t.PessoaId == id)).any
             (fun t => t.CategoriaId == c.Id))).length) := by
  unfold deletePessoa at h
  split at h
  · simp at h
  · exact (Except.ok.inj h).symm

/-- C7: with the input checks of the fixed order passing, a missing
referenced person is rejected with the person-not-found reason and a
missing referenced category (person resolved and the minor rule passing)
with the category-not-found reason; both carry the spec's NotFound class,
which no InvalidInput- or Forbidden-class rejection shares. -/
theorem notFound_errors_correct (t : Transacao) (db : AppDb)
    (hdesc : isNullOrWhiteSpace t.Descricao = false)
    (hval : 0 < t.Valor)
    (htipo : t.Tipo = "Despesa" ∨ t.Tipo = "Receita") :
    (findPessoa db t.PessoaId = none →
      postTransacao t db = .error .pessoaNaoEncontrada) ∧
    (∀ p, findPessoa db t.PessoaId = some p →
      ¬ (p.Idade < 18 ∧ t.Tipo = "Receita") →
      findCategoria db t.CategoriaId = none →
      postTransacao t db = .error .categoriaNaoEncontrada) ∧
    classeDe .pessoaNaoEncontrada = .notFound ∧
    classeDe .categoriaNaoEncontrada = .notFound ∧
    (∀ e : ApiErro, classeDe e = .invalidInput ∨ classeDe e = .forbidden →
      e ≠ .pessoaNaoEncontrada ∧ e ≠ .categoriaNaoEncontrada) := by
  refine ⟨?_, ?_, rfl, rfl, ?_⟩
  · intro hp
    simp [postTransacao, hdesc, not_le.mpr hval, not_not_intro htipo, hp]
  · intro p hp hminor hc
    simp [postTransacao, hdesc, not_le.mpr hval, not_not_intro htipo, hp,
      hminor, hc]
  · intro e he
    cases e <;> simp_all [classeDe]

/-- C7 instantiated: a transaction referencing a missing person id and one
referencing a missing category id are rejected with the two not-found
reasons. -/
theorem notFound_errors_correct_witness :
    (postTransacao (trMk "conta" 9 "Despesa" 4 99) dbBase
      = .error .pessoaNaoEncontrada) ∧
    (postTransacao (trMk "conta" 9 "Despesa" 99 2) dbBase
      = .error .categoriaNaoEncontrada) := by
  constructor
  · exact (notFound_errors_correct _ dbBase (by rfl) (by norm_num [trMk])
      (Or.inl rfl)).1 rfl
  · exact (notFound_errors_correct _ dbBase (by rfl) (by norm_num [trMk])
      (Or.inl rfl)).2.1 pBia rfl (by simp [pBia, trMk]) rfl

/-- C8: deleting a nonexistent (or already deleted) person identity fails
with the not-found rejection and the observed store is unchanged — no
orphan sweep runs; and rerunning a successful deletion fails the same
way. -/
theorem deletePessoa_notFound_correct (id : Int) (db : AppDb) :
    (findPessoa db id = none →
      deletePessoa id db = .error .pessoaNaoEncontradaDelete ∧
      estadoAposDelete id db = db) ∧
    (∀ db' n, deletePessoa id db = .ok (db', n) →
      deletePessoa id db' = .error .pessoaNaoEncontradaDelete) := by
  constructor
  · intro h
    have hd : deletePessoa id db = .error .pessoaNaoEncontradaDelete := by
      unfold deletePessoa
      rw [h]
    refine ⟨hd, ?_⟩
    unfold estadoAposDelete
    rw [hd]
  · intro db' n h
    have hx := deletePessoa_ok_inv h
    have hp : db'.pessoas = db.pessoas.filter (fun p => ¬ p.Id == id) := by
      rw [show db' = (Prod.fst (db', n)) from rfl, hx]
    have hnone : findPessoa db' id = none := by
      unfold findPessoa
      rw [hp, List.find?_eq_none]
      intro p hmem
      simp only [List.mem_filter] at hmem
      simpa using hmem.2
    unfold deletePessoa
    rw [hnone]

/-- C8 instantiated: deleting the unused identity 99 fails with not-found
and leaves the concrete store as it was, and re-deleting person 2 after a
successful deletion fails with not-found. -/
theorem deletePessoa_notFound_correct_witness :
    (deletePessoa 99 dbBase = .error .pessoaNaoEncontradaDelete ∧
      estadoAposDelete 99 dbBase = dbBase) ∧
    deletePessoa 2 dbSemBia = .error .pessoaNaoEncontradaDelete := by
  constructor
  · exact (deletePessoa_notFound_correct 99 dbBase).1 rfl
  · exact (deletePessoa_notFound_correct 2 dbBase).2 _ 3 rfl

/-- C10: in every store state reachable through the system's operations,
every stored category's purpose is one of exactly "Despesa", "Receita",
"Ambas", and every stored transaction's kind is one of exactly "Despesa",
"Receita": the creation paths reject any other value before persisting and
no operation rewrites these fields. -/
theorem stored_literals_valid (db : AppDb) (h : Alcancavel db) :
    (∀ c ∈ db.categorias, c.Finalidade = "Despesa" ∨
      c.Finalidade = "Receita" ∨ c.Finalidade = "Ambas") ∧
    (∀ t ∈ db.transacoes, t.Tipo = "Despesa" ∨ t.Tipo = "Receita") := by
  induction h with
  | vazio => exact ⟨fun c hc => absurd hc (List.not_mem_nil c),
      fun t ht => absurd ht (List.not_mem_nil t)⟩
  | pessoa hA hok ih =>
    rw [postPessoa_ok_inv hok]
    exact ih
  | categoria hA hok ih =>
    obtain ⟨hdb, hfin⟩ := postCategoria_ok_inv hok
    subst hdb
    refine ⟨?_, ih.2⟩
    intro c' hc'
    rcases List.mem_append.mp hc' with hmem | hmem
    · exact ih.1 c' hmem
    · rw [List.mem_singleton.mp hmem]
      exact hfin
  | transacao hA hok ih =>
    obtain ⟨hdb, htipo⟩ := postTransacao_ok_inv hok
    subst hdb
    refine ⟨ih.1, ?_⟩
    intro t' ht'
    rcases List.mem_append.mp ht' with hmem | hmem
    · exact ih.2 t' hmem
    · rw [List.mem_singleton.mp hmem]
      exact htipo
  | deleta hA hok ih =>
    have hx := deletePessoa_ok_inv hok
    injection hx with hdb hn
    subst hdb
    constructor
    · intro c hc
      exact ih.1 c (List.mem_filter.mp hc).1
    · intro t ht
      exact ih.2 t (List.mem_filter.mp ht).1

/-- C10 instantiated: a concrete store reached by creating a person, a
category and a transaction satisfies the two literal invariants. -/
theorem stored_literals_valid_witness :
    (∀ c ∈ dbW3.categorias, c.Finalidade = "Despesa" ∨
      c.Finalidade = "Receita" ∨ c.Finalidade = "Ambas") ∧
    (∀ t ∈ dbW3.transacoes, t.Tipo = "Despesa" ∨ t.Tipo = "Receita") := by
  have h0 : Alcancavel { pessoas := [], categorias := [], transacoes := [] } :=
    Alcancavel.vazio
  have h1 : Alcancavel dbW1 :=
    @Alcancavel.pessoa _ dbW1 pBia h0 (by rfl)
  have h2 : Alcancavel dbW2 :=
    @Alcancavel.categoria dbW1 dbW2 catOutros h1 (by rfl)
  have h3 : Alcancavel dbW3 :=
    @Alcancavel.transacao dbW2 dbW3 trLazer h2 (by rfl)
  exact stored_literals_valid dbW3 h3

theorem postTransacao_vs_spec (t : Transacao) (db : AppDb) :
    (postTransacao t db = .ok { db with transacoes := db.transacoes ++ [t] }
      ∧ primeiraViolacao t db = none) ∨
    (∃ e, postTransacao t db = .error e ∧
      primeiraViolacao t db = some (motivoDe e)) := by
  by_cases h1 : isNullOrWhiteSpace t.Descricao = true
  · right
    exact ⟨.descricaoObrigatoria, by simp [postTransacao, h1],
      by simp [primeiraViolacao, h1, motivoDe]⟩
  · by_cases h2 : t.Valor ≤ 0
    · right
      exact ⟨.valorNaoPositivo, by simp [postTransacao, h1, h2],
        by simp [primeiraViolacao, h1, h2, motivoDe]⟩
    · by_cases h3 : t.Tipo = "Despesa" ∨ t.Tipo = "Receita"
      · cases hp : findPessoa db t.PessoaId with
        | none =>
          right
          exact ⟨.pessoaNaoEncontrada,
            by simp [postTransacao, h1, h2, not_not_intro h3, hp],
            by simp [primeiraViolacao, h1, h2, not_not_intro h3, hp,
              motivoDe]⟩
        | some p =>
          by_cases h4 : p.Idade < 18 ∧ t.Tipo = "Receita"
          · right
            exact ⟨.menorDeIdade,
              by simp [postTransacao, h1, h2, not_not_intro h3, hp, h4],
              by simp [primeiraViolacao, h1, h2, not_not_intro h3, hp, h4,
                motivoDe]⟩
          · cases hc : findCategoria db t.CategoriaId with
            | none =>
              right
              exact ⟨.categoriaNaoEncontrada,
                by simp [postTransacao, h1, h2, not_not_intro h3, hp, h4, hc],
                by simp [primeiraViolacao, h1, h2, not_not_intro h3, hp, h4,
                  hc, motivoDe]⟩
            | some c =>
              by_cases h5 : t.Tipo = "Despesa" ∧ c.Finalidade = "Receita"
              · right
                exact ⟨.categoriaExclusivaReceitas,
                  by simp [postTransacao, h1, h2, not_not_intro h3, hp, h4,
                    hc, h5],
                  by simp [primeiraViolacao, h1, h2, not_not_intro h3, hp,
                    h4, hc, h5, motivoDe]⟩
              · by_cases h6 : t.Tipo = "Receita" ∧ c.Finalidade = "Despesa"
                · have hage : 18 ≤ p.Idade :=
                    not_lt.mp (fun hx => h4 ⟨hx, h6.1⟩)
                  right
                  exact ⟨.categoriaExclusivaDespesas,
                    by simp [postTransacao, h1, h2, not_not_intro h3, hp,
                      h4, hc, h5, h6, hage],
                    by simp [primeiraViolacao, h1, h2, not_not_intro h3,
                      hp, h4, hc, h5, h6, motivoDe, hage]⟩
                · left
                  exact ⟨by simp [postTransacao, h1, h2, not_not_intro h3,
                      hp, h4, hc, h5, h6],
                    by simp [primeiraViolacao, h1, h2, not_not_intro h3,
                      hp, h4, hc, h5, h6]⟩
      · right
        exact ⟨.tipoInvalido, by simp [postTransacao, h1, h2, h3],
          by simp [primeiraViolacao, h1, h2, h3, motivoDe]⟩

/-- C2: the admission pipeline agrees with the spec's ordered five-check
contract: when it accepts, the transaction is persisted exactly as given
and no spec check is violated; when it rejects, no transaction is
persisted and the surfaced reason is exactly the first violated check of
the spec's order; and whenever no spec check is violated it accepts. -/
theorem admission_matches_spec (t : Transacao) (db : AppDb) :
    (∀ db', postTransacao t db = .ok db' →
      db' = { db with transacoes := db.transacoes ++ [t] } ∧
      primeiraViolacao t db = none) ∧
    (∀ e, postTransacao t db = .error e →
      primeiraViolacao t db = some (motivoDe e)) ∧
    (primeiraViolacao t db = none →
      postTransacao t db = .ok { db with transacoes := db.transacoes ++ [t] }) := by
  rcases postTransacao_vs_spec t db with ⟨hok, hnone⟩ | ⟨e, herr, hspec⟩
  · refine ⟨?_, ?_, fun _ => hok⟩
    · intro db' h
      rw [hok] at h
      exact ⟨(Except.ok.inj h).symm, hnone⟩
    · intro e h
      rw [hok] at h
      exact absurd h (by simp)
  · refine ⟨?_, ?_, ?_⟩
    · intro db' h
      rw [herr] at h
      exact absurd h (by simp)
    · intro e' h
      rw [herr] at h
      rw [← Except.error.inj h]
      exact hspec
    · intro hn
      rw [hspec] at hn
      exact absurd hn (by simp)

/-- C2 instantiated: a concrete valid expense is persisted exactly as
given with no check violated, and a concrete rejected income surfaces the
first violated check (the minor rule) as its reason. -/
theorem admission_matches_spec_witness :
    postTransacao (trMk "compra" 9 "Despesa" 4 2) dbBase
      = .ok { dbBase with transacoes := dbBase.transacoes
          ++ [trMk "compra" 9 "Despesa" 4 2] } ∧
    primeiraViolacao (trMk "mesada" 9 "Receita" 4 1) dbBase
      = some (motivoDe .menorDeIdade) := by
  constructor
  · exact (admission_matches_spec (trMk "compra" 9 "Despesa" 4 2)
      dbBase).2.2 (by rfl)
  · exact (admission_matches_spec (trMk "mesada" 9 "Receita" 4 1)
      dbBase).2.1 .menorDeIdade (by rfl)

theorem length_filter_not_add {α : Type} (l : List α) (q : α → Bool) :
    (l.filter (fun a => ¬ q a)).length + (l.filter q).length = l.length := by
  induction l with
  | nil => rfl
  | cons a l ih =>
    by_cases hq : q a = true <;>
      simp [List.filter_cons, hq, ← ih] <;> omega

/-- C1: when person deletion succeeds, the person and every transaction
referencing that person are gone; a category of the old store survives
exactly when some remaining transaction references it, so exactly the
categories orphaned after the cascade are removed, over the whole category
set; surviving categories all come from the old store; and the count
reported to the caller plus the survivors accounts for the whole old
category set. -/
theorem deletePessoa_cascade_correct (id : Int) (db db' : AppDb) (n : Nat)
    (h : deletePessoa id db = .ok (db', n)) :
    (∀ p ∈ db'.pessoas, p.Id ≠ id) ∧
    (∀ t ∈ db'.transacoes, t.PessoaId ≠ id) ∧
    (∀ c ∈ db'.categorias, c ∈ db.categorias) ∧
    (∀ c ∈ db.categorias,
      (c ∈ db'.categorias ↔ ∃ t ∈ db'.transacoes, t.CategoriaId = c.Id)) ∧
    n + db'.categorias.length = db.categorias.length := by
  have hx := deletePessoa_ok_inv h
  injection hx with hdb hn
  subst hdb
  subst hn
  refine ⟨?_, ?_, ?_, ?_, ?_⟩
  · intro p hp
    simpa using (List.mem_filter.mp hp).2
  · intro t ht
    simpa using (List.mem_filter.mp ht).2
  · intro c hc
    exact (List.mem_filter.mp hc).1
  · intro c hc
    constructor
    · intro hc'
      have hany := (List.mem_filter.mp hc').2
      simp only [List.any_eq_true] at hany
      obtain ⟨x, hx, hcc⟩ := hany
      exact ⟨x, hx, eq_of_beq hcc⟩
    · rintro ⟨t, ht, htc⟩
      refine List.mem_filter.mpr ⟨hc, ?_⟩
      simp only [List.any_eq_true]
      exact ⟨t, ht, beq_iff_eq.mpr htc⟩
  · exact length_filter_not_add db.categorias _

/-- C1 instantiated: deleting person 2 from a concrete store with one
transaction removes the person, the transaction and the now-orphaned
category, and reports the count 1 with the success result. -/
theorem deletePessoa_cascade_correct_witness :
    deletePessoa 2 dbW3 = .ok (dbVazio, 1) ∧
    (∀ t ∈ dbVazio.transacoes, t.PessoaId ≠ 2) ∧
    1 + dbVazio.categorias.length = dbW3.categorias.length :=
  ⟨rfl, (deletePessoa_cascade_correct 2 dbW3 dbVazio 1 rfl).2.1,
    (deletePessoa_cascade_correct 2 dbW3 dbVazio 1 rfl).2.2.2.2⟩

theorem sum_map_ite_zero_of_not_mem (l : List Int) (x : Int) (q : ℚ)
    (hx : x ∉ l) :
    (l.map (fun a => if x = a then q else 0)).sum = 0 := by
  induction l with
  | nil => simp
  | cons a l ih =>
    have hx' : x ≠ a ∧ x ∉ l := by
      constructor
      · intro hxa
        exact hx (hxa ▸ List.mem_cons_self a l)
      · intro hmem
        exact hx (List.mem_cons_of_mem a hmem)
    simp [hx'.1, ih hx'.2]

theorem sum_map_ite_zero (l : List Int) (x : Int) (q : ℚ)
    (hn : l.Nodup) (hx : x ∈ l) :
    (l.map (fun a => if x = a then q else 0)).sum = q := by
  induction l with
  | nil => cases hx
  | cons a l ih =>
    obtain ⟨ha, hl⟩ := List.nodup_cons.mp hn
    rcases List.mem_cons.mp hx with rfl | hx'
    · simp [sum_map_ite_zero_of_not_mem l x q ha]
    · have hxa : x ≠ a := by
        intro hxa
        exact ha (hxa ▸ hx')
      simp [hxa, ih hl hx']

theorem sum_sum_filter_key {α β : Type} (P : List α) (key : α → Int)
    (ts : List β) (k : β → Int) (c : β → Bool) (v : β → ℚ)
    (hnodup : (P.map key).Nodup)
    (hcov : ∀ b ∈ ts, c b = true → k b ∈ P.map key) :
    (P.map (fun p =>
      ((ts.filter (fun b => c b && (k b == key p))).map v).sum)).sum
      = ((ts.filter c).map v).sum := by
  induction ts with
  | nil => simp
  | cons b ts ih =>
    have hcov' : ∀ x ∈ ts, c x = true → k x ∈ P.map key :=
      fun x hx hcx => hcov x (List.mem_cons_of_mem _ hx) hcx
    by_cases hcb : c b = true
    · have hstep : ∀ p ∈ P,
          (((b :: ts).filter (fun x => c x && (k x == key p))).map v).sum
          = (if k b = key p then v b else 0)
            + ((ts.filter (fun x => c x && (k x == key p))).map v).sum := by
        intro p _
        by_cases hkp : k b = key p
        · simp [List.filter_cons, hcb, hkp]
        · simp [List.filter_cons, hcb, hkp]
      rw [List.map_congr_left hstep, List.sum_map_add, ih hcov']
      have hone : (P.map (fun p => if k b = key p then v b else 0)).sum
          = v b := by
        rw [show (fun p => if k b = key p then v b else 0)
            = ((fun a => if k b = a then v b else 0) ∘ key) from rfl,
          ← List.map_map]
        exact sum_map_ite_zero (P.map key) (k b) (v b) hnodup
          (hcov b (List.mem_cons_self b ts) hcb)
      rw [hone]
      simp [List.filter_cons, hcb]
    · have hstep : ∀ p ∈ P,
          (((b :: ts).filter (fun x => c x && (k x == key p))).map v).sum
          = ((ts.filter (fun x => c x && (k x == key p))).map v).sum := by
        intro p _
        simp [List.filter_cons, hcb]
      rw [List.map_congr_left hstep, ih hcov']
      simp [List.filter_cons, hcb]

theorem totaisPorPessoa_map_receitas (db : AppDb) :
    (totaisPorPessoa db).1.map (fun e => e.totalReceitas)
      = db.pessoas.map
        (fun p => somaPorTipo (transacoesDePessoa db p) "Receita") := by
  unfold totaisPorPessoa
  rw [List.map_map]
  rfl

theorem totaisPorPessoa_map_despesas (db : AppDb) :
    (totaisPorPessoa db).1.map (fun e => e.totalDespesas)
      = db.pessoas.map
        (fun p => somaPorTipo (transacoesDePessoa db p) "Despesa") := by
  unfold totaisPorPessoa
  rw [List.map_map]
  rfl

theorem totaisPorCategoria_map_receitas (db : AppDb) :
    (totaisPorCategoria db).1.map (fun e => e.totalReceitas)
      = db.categorias.map
        (fun c => somaPorTipo (transacoesDeCategoria db c) "Receita") := by
  unfold totaisPorCategoria
  rw [List.map_map]
  rfl

theorem totaisPorCategoria_map_despesas (db : AppDb) :
    (totaisPorCategoria db).1.map (fun e => e.totalDespesas)
      = db.categorias.map
        (fun c => somaPorTipo (transacoesDeCategoria db c) "Despesa") := by
  unfold totaisPorCategoria
  rw [List.map_map]
  rfl

theorem geral_pessoa_eq (db : AppDb) (tipo : String)
    (hP : (db.pessoas.map Pessoa.Id).Nodup)
    (href : ∀ t ∈ db.transacoes, t.PessoaId ∈ db.pessoas.map Pessoa.Id) :
    (db.pessoas.map
      (fun p => somaPorTipo (transacoesDePessoa db p) tipo)).sum
      = somaPorTipo db.transacoes tipo := by
  have heach : ∀ p ∈ db.pessoas,
      somaPorTipo (transacoesDePessoa db p) tipo
      = ((db.transacoes.filter
          (fun b => (b.Tipo == tipo) && (b.PessoaId == p.Id))).map
          (fun t => t.Valor)).sum := by
    intro p _
    unfold somaPorTipo transacoesDePessoa
    rw [List.filter_filter]
  rw [List.map_congr_left heach]
  exact sum_sum_filter_key db.pessoas Pessoa.Id db.transacoes
    (fun t => t.PessoaId) (fun t => t.Tipo == tipo) (fun t => t.Valor)
    hP (fun t ht _ => href t ht)

theorem geral_categoria_eq (db : AppDb) (tipo : String)
    (hC : (db.categorias.map Categoria.Id).Nodup)
    (href : ∀ t ∈ db.transacoes,
      t.CategoriaId ∈ db.categorias.map Categoria.Id) :
    (db.categorias.map
      (fun c => somaPorTipo (transacoesDeCategoria db c) tipo)).sum
      = somaPorTipo db.transacoes tipo := by
  have heach : ∀ c ∈ db.categorias,
      somaPorTipo (transacoesDeCategoria db c) tipo
      = ((db.transacoes.filter
          (fun b => (b.Tipo == tipo) && (b.CategoriaId == c.Id))).map
          (fun t => t.Valor)).sum := by
    intro c _
    unfold somaPorTipo transacoesDeCategoria
    rw [List.filter_filter]
  rw [List.map_congr_left heach]
  exact sum_sum_filter_key db.categorias Categoria.Id db.transacoes
    (fun t => t.CategoriaId) (fun t => t.Tipo == tipo) (fun t => t.Valor)
    hC (fun t ht _ => href t ht)

/-- C5: for a store whose person and category keys are unique and whose
transactions all reference an existing person and category, both reports'
grand totals (income, expense, balance) equal the sums taken directly over
the ungrouped transaction set — so the two reports reconcile with each
other and with the raw data. -/
theorem cross_aggregation_reconciles (db : AppDb)
    (hP : (db.pessoas.map Pessoa.Id).Nodup)
    (hC : (db.categorias.map Categoria.Id).Nodup)
    (hrefP : ∀ t ∈ db.transacoes, t.PessoaId ∈ db.pessoas.map Pessoa.Id)
    (hrefC : ∀ t ∈ db.transacoes,
      t.CategoriaId ∈ db.categorias.map Categoria.Id) :
    (totaisPorPessoa db).2.totalReceitas
      = somaPorTipo db.transacoes "Receita" ∧
    (totaisPorPessoa db).2.totalDespesas
      = somaPorTipo db.transacoes "Despesa" ∧
    (totaisPorCategoria db).2.totalReceitas
      = somaPorTipo db.transacoes "Receita" ∧
    (totaisPorCategoria db).2.totalDespesas
      = somaPorTipo db.transacoes "Despesa" ∧
    (totaisPorPessoa db).2.saldoLiquido
      = somaPorTipo db.transacoes "Receita"
        - somaPorTipo db.transacoes "Despesa" ∧
    (totaisPorCategoria db).2.saldoLiquido
      = somaPorTipo db.transacoes "Receita"
        - somaPorTipo db.transacoes "Despesa" := by
  have hpr : (totaisPorPessoa db).2.totalReceitas
      = somaPorTipo db.transacoes "Receita" := by
    show ((totaisPorPessoa db).1.map (fun e => e.totalReceitas)).sum = _
    rw [totaisPorPessoa_map_receitas, geral_pessoa_eq db "Receita" hP hrefP]
  have hpd : (totaisPorPessoa db).2.totalDespesas
      = somaPorTipo db.transacoes "Despesa" := by
    show ((totaisPorPessoa db).1.map (fun e => e.totalDespesas)).sum = _
    rw [totaisPorPessoa_map_despesas, geral_pessoa_eq db "Despesa" hP hrefP]
  have hcr : (totaisPorCategoria db).2.totalReceitas
      = somaPorTipo db.transacoes "Receita" := by
    show ((totaisPorCategoria db).1.map (fun e => e.totalReceitas)).sum = _
    rw [totaisPorCategoria_map_receitas,
      geral_categoria_eq db "Receita" hC hrefC]
  have hcd : (totaisPorCategoria db).2.totalDespesas
      = somaPorTipo db.transacoes "Despesa" := by
    show ((totaisPorCategoria db).1.map (fun e => e.totalDespesas)).sum = _
    rw [totaisPorCategoria_map_despesas,
      geral_categoria_eq db "Despesa" hC hrefC]
  have hps : (totaisPorPessoa db).2.saldoLiquido
      = (totaisPorPessoa db).2.totalReceitas
        - (totaisPorPessoa db).2.totalDespesas := rfl
  have hcs : (totaisPorCategoria db).2.saldoLiquido
      = (totaisPorCategoria db).2.totalReceitas
        - (totaisPorCategoria db).2.totalDespesas := rfl
  exact ⟨hpr, hpd, hcr, hcd, by rw [hps, hpr, hpd], by rw [hcs, hcr, hcd]⟩

/-- C5 instantiated: at a concrete store with one person, one category and
one transaction, the per-person grand income, the per-category grand
expense and both balances agree with the ungrouped sums. -/
theorem cross_aggregation_reconciles_witness :
    (totaisPorPessoa dbW3).2.totalReceitas
      = somaPorTipo dbW3.transacoes "Receita" ∧
    (totaisPorCategoria dbW3).2.totalDespesas
      = somaPorTipo dbW3.transacoes "Despesa" ∧
    (totaisPorPessoa dbW3).2.saldoLiquido
      = (totaisPorCategoria dbW3).2.saldoLiquido := by
  obtain ⟨h1, h2, h3, h4, h5, h6⟩ := cross_aggregation_reconciles dbW3
    (by decide) (by decide) (by decide) (by decide)
  exact ⟨h1, h4, by rw [h5, h6]⟩

theorem filter_key_eq_singleton {α : Type} (l : List α) (key : α → Int)
    (x : α) (hn : (l.map key).Nodup) (hx : x ∈ l) :
    (l.filter (fun q => key q == key x)).length = 1 := by
  induction l with
  | nil => cases hx
  | cons a l ih =>
    rw [List.map_cons, List.nodup_cons] at hn
    obtain ⟨ha, hl⟩ := hn
    rcases List.mem_cons.mp hx with rfl | hx'
    · have hnil : l.filter (fun q => key q == key x) = [] := by
        rw [List.filter_eq_nil_iff]
        intro q hq hbeq
        exact ha (eq_of_beq hbeq ▸ List.mem_map_of_mem key hq)
      simp [List.filter_cons, hnil]
    · have hne : (key a == key x) = false := by
        rw [beq_eq_false_iff_ne]
        intro hax
        exact ha (hax ▸ List.mem_map_of_mem key hx')
      simp [List.filter_cons, hne, ih hl hx']

theorem totaisPorPessoa_fst (db : AppDb) :
    (totaisPorPessoa db).1 = db.pessoas.map (linhaPessoa db) := rfl

theorem totaisPorCategoria_fst (db : AppDb) :
    (totaisPorCategoria db).1 = db.categorias.map (linhaCategoria db) := rfl

theorem linhaPessoa_receitas (db : AppDb) (p : Pessoa) :
    (linhaPessoa db p).totalReceitas = ((db.transacoes.filter
      (fun t => (t.Tipo == "Receita") && (t.PessoaId == p.Id))).map
      (fun t => t.Valor)).sum := by
  show somaPorTipo (transacoesDePessoa db p) "Receita" = _
  unfold somaPorTipo transacoesDePessoa
  rw [List.filter_filter]

theorem linhaPessoa_despesas (db : AppDb) (p : Pessoa) :
    (linhaPessoa db p).totalDespesas = ((db.transacoes.filter
      (fun t => (t.Tipo == "Despesa") && (t.PessoaId == p.Id))).map
      (fun t => t.Valor)).sum := by
  show somaPorTipo (transacoesDePessoa db p) "Despesa" = _
  unfold somaPorTipo transacoesDePessoa
  rw [List.filter_filter]

theorem linhaCategoria_receitas (db : AppDb) (c : Categoria) :
    (linhaCategoria db c).totalReceitas = ((db.transacoes.filter
      (fun t => (t.Tipo == "Receita") && (t.CategoriaId == c.Id))).map
      (fun t => t.Valor)).sum := by
  show somaPorTipo (transacoesDeCategoria db c) "Receita" = _
  unfold somaPorTipo transacoesDeCategoria
  rw [List.filter_filter]

theorem linhaCategoria_despesas (db : AppDb) (c : Categoria) :
    (linhaCategoria db c).totalDespesas = ((db.transacoes.filter
      (fun t => (t.Tipo == "Despesa") && (t.CategoriaId == c.Id))).map
      (fun t => t.Valor)).sum := by
  show somaPorTipo (transacoesDeCategoria db c) "Despesa" = _
  unfold somaPorTipo transacoesDeCategoria
  rw [List.filter_filter]

/-- C6: under unique keys, every person and every category owns exactly
one row of its report; each row's income (expense) total is the sum of
the amounts of that entity's transactions of that kind, its balance is
exactly income minus expense, and an entity with no transactions shows
all-zero totals. -/
theorem report_rows_correct (db : AppDb)
    (hP : (db.pessoas.map Pessoa.Id).Nodup)
    (hC : (db.categorias.map Categoria.Id).Nodup) :
    (∀ p ∈ db.pessoas,
      ((totaisPorPessoa db).1.filter
        (fun e => e.pessoaId == p.Id)).length = 1 ∧
      (∀ e ∈ (totaisPorPessoa db).1, e.pessoaId = p.Id →
        e.totalReceitas = ((db.transacoes.filter
            (fun t => (t.Tipo == "Receita") && (t.PessoaId == p.Id))).map
            (fun t => t.Valor)).sum ∧
        e.totalDespesas = ((db.transacoes.filter
            (fun t => (t.Tipo == "Despesa") && (t.PessoaId == p.Id))).map
            (fun t => t.Valor)).sum ∧
        e.saldo = e.totalReceitas - e.totalDespesas ∧
        ((∀ t ∈ db.transacoes, t.PessoaId ≠ p.Id) →
          e.totalReceitas = 0 ∧ e.totalDespesas = 0 ∧ e.saldo = 0))) ∧
    (∀ c ∈ db.categorias,
      ((totaisPorCategoria db).1.filter
        (fun e => e.categoriaId == c.Id)).length = 1 ∧
      (∀ e ∈ (totaisPorCategoria db).1, e.categoriaId = c.Id →
        e.totalReceitas = ((db.transacoes.filter
            (fun t => (t.Tipo == "Receita") && (t.CategoriaId == c.Id))).map
            (fun t => t.Valor)).sum ∧
        e.totalDespesas = ((db.transacoes.filter
            (fun t => (t.Tipo == "Despesa") && (t.CategoriaId == c.Id))).map
            (fun t => t.Valor)).sum ∧
        e.saldo = e.totalReceitas - e.totalDespesas ∧
        ((∀ t ∈ db.transacoes, t.CategoriaId ≠ c.Id) →
          e.totalReceitas = 0 ∧ e.totalDespesas = 0 ∧ e.saldo = 0))) := by
  constructor
  · intro p hp
    constructor
    · rw [totaisPorPessoa_fst, List.filter_map, List.length_map]
      exact filter_key_eq_singleton db.pessoas Pessoa.Id p hP hp
    · intro e he hepid
      rw [totaisPorPessoa_fst] at he
      obtain ⟨q, hq, hfq⟩ := List.mem_map.mp he
      have hqid : q.Id = p.Id := by
        rw [← hfq] at hepid
        exact hepid
      have hqp : q = p := List.inj_on_of_nodup_map hP hq hp hqid
      subst hqp
      have hrec := hfq ▸ linhaPessoa_receitas db q
      have hdesp := hfq ▸ linhaPessoa_despesas db q
      have hsaldo : e.saldo = e.totalReceitas - e.totalDespesas := by
        rw [← hfq]
        rfl
      refine ⟨hrec, hdesp, hsaldo, ?_⟩
      intro hnone
      have hnil : ∀ tipo, db.transacoes.filter
          (fun t => (t.Tipo == tipo) && (t.PessoaId == q.Id)) = [] := by
        intro tipo
        rw [List.filter_eq_nil_iff]
        intro t ht hpred
        exact hnone t ht (eq_of_beq ((Bool.and_eq_true _ _).mp hpred).2)
      have h0r : e.totalReceitas = 0 := by
        rw [hrec, hnil "Receita"]
        rfl
      have h0d : e.totalDespesas = 0 := by
        rw [hdesp, hnil "Despesa"]
        rfl
      exact ⟨h0r, h0d, by rw [hsaldo, h0r, h0d, sub_zero]⟩
  · intro c hc
    constructor
    · rw [totaisPorCategoria_fst, List.filter_map, List.length_map]
      exact filter_key_eq_singleton db.categorias Categoria.Id c hC hc
    · intro e he hecid
      rw [totaisPorCategoria_fst] at he
      obtain ⟨d, hd, hfd⟩ := List.mem_map.mp he
      have hdid : d.Id = c.Id := by
        rw [← hfd] at hecid
        exact hecid
      have hdc : d = c := List.inj_on_of_nodup_map hC hd hc hdid
      subst hdc
      have hrec := hfd ▸ linhaCategoria_receitas db d
      have hdesp := hfd ▸ linhaCategoria_despesas db d
      have hsaldo : e.saldo = e.totalReceitas - e.totalDespesas := by
        rw [← hfd]
        rfl
      refine ⟨hrec, hdesp, hsaldo, ?_⟩
      intro hnone
      have hnil : ∀ tipo, db.transacoes.filter
          (fun t => (t.Tipo == tipo) && (t.CategoriaId == d.Id)) = [] := by
        intro tipo
        rw [List.filter_eq_nil_iff]
        intro t ht hpred
        exact hnone t ht (eq_of_beq ((Bool.and_eq_true _ _).mp hpred).2)
      have h0r : e.totalReceitas = 0 := by
        rw [hrec, hnil "Receita"]
        rfl
      have h0d : e.totalDespesas = 0 := by
        rw [hdesp, hnil "Despesa"]
        rfl
      exact ⟨h0r, h0d, by rw [hsaldo, h0r, h0d, sub_zero]⟩

/-- C6 instantiated: in the concrete store `dbW3`, person 2 owns exactly
one report row and category 5 owns exactly one report row. -/
theorem report_rows_correct_witness :
    ((totaisPorPessoa dbW3).1.filter
      (fun e => e.pessoaId == pBia.Id)).length = 1 ∧
    ((totaisPorCategoria dbW3).1.filter
      (fun e => e.categoriaId == catOutros.Id)).length = 1 := by
  constructor
  · exact ((report_rows_correct dbW3 (by decide) (by decide)).1 pBia
      (by decide)).1
  · exact ((report_rows_correct dbW3 (by decide) (by decide)).2 catOutros
      (by decide)).1

theorem centavos_zero : Centavos 0 :=
  ⟨0, by norm_num⟩

theorem centavos_add {a b : ℚ} (ha : Centavos a) (hb : Centavos b) :
    Centavos (a + b) := by
  obtain ⟨n, rfl⟩ := ha
  obtain ⟨m, rfl⟩ := hb
  exact ⟨n + m, by push_cast; ring⟩

theorem centavos_sub {a b : ℚ} (ha : Centavos a) (hb : Centavos b) :
    Centavos (a - b) := by
  obtain ⟨n, rfl⟩ := ha
  obtain ⟨m, rfl⟩ := hb
  exact ⟨n - m, by push_cast; ring⟩

theorem centavos_sum {β : Type} (l : List β) (v : β → ℚ)
    (h : ∀ x ∈ l, Centavos (v x)) : Centavos ((l.map v).sum) := by
  induction l with
  | nil =>
    rw [List.map_nil, List.sum_nil]
    exact centavos_zero
  | cons a l ih =>
    rw [List.map_cons, List.sum_cons]
    exact centavos_add (h a (List.mem_cons_self a l))
      (ih (fun x hx => h x (List.mem_cons_of_mem a hx)))

/-- C9: when every transaction amount is a whole number of cents (the
value set of the `decimal(18,2)` column, summed here in exact arithmetic),
every per-row and grand total of both reports is again a whole number of
cents, and every balance is exactly income minus expense — no drift. -/
theorem totals_exact_cents (db : AppDb)
    (h : ∀ t ∈ db.transacoes, Centavos t.Valor) :
    (∀ e ∈ (totaisPorPessoa db).1, Centavos e.totalReceitas ∧
      Centavos e.totalDespesas ∧ Centavos e.saldo ∧
      e.saldo = e.totalReceitas - e.totalDespesas) ∧
    (∀ e ∈ (totaisPorCategoria db).1, Centavos e.totalReceitas ∧
      Centavos e.totalDespesas ∧ Centavos e.saldo ∧
      e.saldo = e.totalReceitas - e.totalDespesas) ∧
    (Centavos (totaisPorPessoa db).2.totalReceitas ∧
      Centavos (totaisPorPessoa db).2.totalDespesas ∧
      Centavos (totaisPorPessoa db).2.saldoLiquido ∧
      (totaisPorPessoa db).2.saldoLiquido
        = (totaisPorPessoa db).2.totalReceitas
          - (totaisPorPessoa db).2.totalDespesas) ∧
    (Centavos (totaisPorCategoria db).2.totalReceitas ∧
      Centavos (totaisPorCategoria db).2.totalDespesas ∧
      Centavos (totaisPorCategoria db).2.saldoLiquido ∧
      (totaisPorCategoria db).2.saldoLiquido
        = (totaisPorCategoria db).2.totalReceitas
          - (totaisPorCategoria db).2.totalDespesas) := by
  have hpes : ∀ e ∈ (totaisPorPessoa db).1, Centavos e.totalReceitas ∧
      Centavos e.totalDespesas ∧ Centavos e.saldo ∧
      e.saldo = e.totalReceitas - e.totalDespesas := by
    intro e he
    rw [totaisPorPessoa_fst] at he
    obtain ⟨q, hq, hfq⟩ := List.mem_map.mp he
    have hr : Centavos e.totalReceitas := by
      rw [← hfq, linhaPessoa_receitas]
      exact centavos_sum _ _ (fun t ht => h t (List.mem_filter.mp ht).1)
    have hd : Centavos e.totalDespesas := by
      rw [← hfq, linhaPessoa_despesas]
      exact centavos_sum _ _ (fun t ht => h t (List.mem_filter.mp ht).1)
    have hs : e.saldo = e.totalReceitas - e.totalDespesas := by
      rw [← hfq]
      rfl
    exact ⟨hr, hd, hs ▸ centavos_sub hr hd, hs⟩
  have hcat : ∀ e ∈ (totaisPorCategoria db).1, Centavos e.totalReceitas ∧
      Centavos e.totalDespesas ∧ Centavos e.saldo ∧
      e.saldo = e.totalReceitas - e.totalDespesas := by
    intro e he
    rw [totaisPorCategoria_fst] at he
    obtain ⟨q, hq, hfq⟩ := List.mem_map.mp he
    have hr : Centavos e.totalReceitas := by
      rw [← hfq, linhaCategoria_receitas]
      exact centavos_sum _ _ (fun t ht => h t (List.mem_filter.mp ht).1)
    have hd : Centavos e.totalDespesas := by
      rw [← hfq, linhaCategoria_despesas]
      exact centavos_sum _ _ (fun t ht => h t (List.mem_filter.mp ht).1)
    have hs : e.saldo = e.totalReceitas - e.totalDespesas := by
      rw [← hfq]
      rfl
    exact ⟨hr, hd, hs ▸ centavos_sub hr hd, hs⟩
  have hgrp : Centavos (totaisPorPessoa db).2.totalReceitas ∧
      Centavos (totaisPorPessoa db).2.totalDespesas := by
    constructor
    · show Centavos ((totaisPorPessoa db).1.map
        (fun e => e.totalReceitas)).sum
      exact centavos_sum _ _ (fun e he => (hpes e he).1)
    · show Centavos ((totaisPorPessoa db).1.map
        (fun e => e.totalDespesas)).sum
      exact centavos_sum _ _ (fun e he => (hpes e he).2.1)
  have hgrc : Centavos (totaisPorCategoria db).2.totalReceitas ∧
      Centavos (totaisPorCategoria db).2.totalDespesas := by
    constructor
    · show Centavos ((totaisPorCategoria db).1.map
        (fun e => e.totalReceitas)).sum
      exact centavos_sum _ _ (fun e he => (hcat e he).1)
    · show Centavos ((totaisPorCategoria db).1.map
        (fun e => e.totalDespesas)).sum
      exact centavos_sum _ _ (fun e he => (hcat e he).2.1)
  refine ⟨hpes, hcat, ⟨hgrp.1, hgrp.2, ?_, rfl⟩, ⟨hgrc.1, hgrc.2, ?_, rfl⟩⟩
  · exact centavos_sub hgrp.1 hgrp.2
  · exact centavos_sub hgrc.1 hgrc.2

/-- C9 instantiated: in the concrete store `dbW3` whose single amount is
a whole number of cents, the grand income of the per-person report and
the grand balance of the per-category report are whole numbers of
cents. -/
theorem totals_exact_cents_witness :
    Centavos (totaisPorPessoa dbW3).2.totalReceitas ∧
    Centavos (totaisPorCategoria dbW3).2.saldoLiquido := by
  have hc : ∀ t ∈ dbW3.transacoes, Centavos t.Valor := by
    intro t ht
    have hteq : t = trLazer := by
      simpa [dbW3] using ht
    rw [hteq]
    exact ⟨700, by norm_num [trLazer, trMk]⟩
  exact ⟨(totals_exact_cents dbW3 hc).2.2.1.1,
    (totals_exact_cents dbW3 hc).2.2.2.2.2.1⟩
